import Mathlib

/-!
Shallow embedding of ArduCopter's guided flight mode
(`src/ArduCopter/mode_guided.cpp`) and verification of its specification.

Modelling conventions:
* `float` quantities are modelled as `ℚ`; the float comparisons `is_zero` /
  `is_positive` are modelled as exact comparison with `0`.
* `uint32_t` millisecond clocks are modelled as `ℕ` together with the
  wrapping subtraction `sub32`.
* External collaborators (inertial nav, fence, waypoint navigation success,
  pilot input, AP_Math `safe_sqrt`, avoidance) are oracles carried in an
  `Env` record: one record of collaborator answers per call.
* Mutable module state (`guided_mode`, the static targets, `guided_limit`,
  and the modelled collaborator-visible state of `auto_yaw`, `wp_nav`,
  `pos_control`, `circle_nav`) lives in a `State` record; every C++ member
  function becomes a pure function of `Env` and `State`.
* Ghost `*_start_count` fields count invocations of the four mode
  initializers; they make "the initializer ran" observable and are touched
  by nothing but the initializers themselves.
* The velocity limiter is modelled in the `AC_AVOID_ENABLED == 0`
  configuration (the avoidance clip is an external collaborator applied
  after the acceleration limiter and is compiled out in that build).
-/

namespace Guided

/-- AP_Math `Vector3f`, components modelled as rationals (NEU centimeters
or cm/s depending on use). -/
structure Vec3 where
  x : ℚ
  y : ℚ
  z : ℚ
deriving DecidableEq

def Vec3.add (a b : Vec3) : Vec3 := ⟨a.x + b.x, a.y + b.y, a.z + b.z⟩

def Vec3.sub (a b : Vec3) : Vec3 := ⟨a.x - b.x, a.y - b.y, a.z - b.z⟩

def Vec3.smul (a : Vec3) (k : ℚ) : Vec3 := ⟨a.x * k, a.y * k, a.z * k⟩

def Vec3.zero : Vec3 := ⟨0, 0, 0⟩

set_option genInjectivity false in
set_option genSizeOfSpec false in
/-- `AP_Mission` style location: latitude/longitude in 1e-7 degrees and
altitude in centimeters (the altitude frame handling is collaborator
territory and is folded into the `Env` oracles that consume locations). -/
structure Location where
  lat : ℤ
  lng : ℤ
  alt : ℤ

/-- The `guided_mode` tag (`GuidedMode` enum in the source). -/
inductive GuidedModeTag
  | TakeOff
  | WP
  | Velocity
  | PosVel
  | Angle
  | Circle
  | CircleMoveToEdge
deriving DecidableEq

/-- Modes of the `auto_yaw` collaborator (`AUTO_YAW_*` constants).  The
collaborator itself lives outside this source file; only the interface
state that the guided code reads and writes is modelled. -/
inductive YawMode
  | hold
  | lookAtNextWP
  | roi
  | fixedAngle
  | lookAhead
  | rate
deriving DecidableEq

set_option genInjectivity false in
set_option genSizeOfSpec false in
/-- Modelled from the spec: interface state of the `auto_yaw` collaborator
(outside this source file).  Per spec §4.2a a yaw command is either a fixed
angle, a fixed rate, or left unchanged; the collaborator stores the mode
plus the fixed-angle and fixed-rate parameters. -/
structure AutoYaw where
  mode : YawMode
  fixed_yaw_deg : ℚ
  fixed_rel : Bool
  rate_cds : ℚ

/-- `auto_yaw.set_mode(m)`. -/
def AutoYaw.setMode (y : AutoYaw) (m : YawMode) : AutoYaw := { y with mode := m }

/-- `auto_yaw.set_mode_to_default(false)`: the default mode comes from the
`WP_YAW_BEHAVIOR` parameter, an external configuration carried in the
environment. -/
def AutoYaw.setModeToDefault (y : AutoYaw) (d : YawMode) : AutoYaw := { y with mode := d }

/-- `auto_yaw.set_fixed_yaw(angle_deg, 0, 0, relative)`. -/
def AutoYaw.setFixedYaw (y : AutoYaw) (angle_deg : ℚ) (rel : Bool) : AutoYaw :=
  { y with mode := YawMode.fixedAngle, fixed_yaw_deg := angle_deg, fixed_rel := rel }

/-- `auto_yaw.set_rate(r)`. -/
def AutoYaw.setRate (y : AutoYaw) (r : ℚ) : AutoYaw :=
  { y with mode := YawMode.rate, rate_cds := r }

set_option genInjectivity false in
set_option genSizeOfSpec false in
/-- `guided_angle_state` (anonymous struct in the source). -/
structure AngleState where
  update_time_ms : ℕ
  roll_cd : ℚ
  pitch_cd : ℚ
  yaw_cd : ℚ
  yaw_rate_cds : ℚ
  climb_rate_cms : ℚ
  thrust : ℚ
  use_yaw_rate : Bool
  use_thrust : Bool

set_option genInjectivity false in
set_option genSizeOfSpec false in
/-- `struct Guided_Limit guided_limit`. -/
structure Guided_Limit where
  timeout_ms : ℕ
  alt_min_cm : ℚ
  alt_max_cm : ℚ
  horiz_max_cm : ℚ
  start_time : ℕ
  start_pos : Vec3

set_option genInjectivity false in
set_option genSizeOfSpec false in
/-- Interface state of the `wp_nav` collaborator as seen from this file:
its current destination (vector form or location form) and a ghost counter
of `wp_and_spline_init` calls (observable "internal state reset"). -/
structure WpNav where
  init_count : ℕ
  dest : Vec3
  dest_terrain_alt : Bool
  dest_loc : Option Location

set_option genInjectivity false in
set_option genSizeOfSpec false in
/-- Interface state of the `pos_control` collaborator as seen from this
file: the targets and limits that `mode_guided.cpp` writes and reads. -/
structure PosControl where
  desired_vel : Vec3
  pos_target : Vec3
  alt_target : ℚ
  active_z : Bool
  max_speed_xy : ℚ
  max_accel_xy : ℚ
  max_speed_down : ℚ
  max_speed_up : ℚ
  max_accel_z : ℚ

set_option genInjectivity false in
set_option genSizeOfSpec false in
/-- Interface state of the `circle_nav` collaborator: center, radius and a
ghost counter of `init` calls. -/
structure CircleNav where
  center : Vec3
  radius_cm : ℚ
  init_count : ℕ

set_option genInjectivity false in
set_option genSizeOfSpec false in
/-- The complete mutable state of the guided mode: the static module
variables of `mode_guided.cpp` plus the modelled collaborator interface
state, plus ghost initializer counters. -/
structure State where
  guided_mode : GuidedModeTag
  guided_pos_target_cm : Vec3
  guided_vel_target_cms : Vec3
  posvel_update_time_ms : ℕ
  vel_update_time_ms : ℕ
  angle : AngleState
  limit : Guided_Limit
  auto_yaw : AutoYaw
  wp_nav : WpNav
  pos_control : PosControl
  circle_nav : CircleNav
  pos_start_count : ℕ
  vel_start_count : ℕ
  posvel_start_count : ℕ
  angle_start_count : ℕ

set_option genInjectivity false in
set_option genSizeOfSpec false in
/-- Collaborator answers and configuration for one call into the guided
code.  Function-valued fields are oracles for collaborator queries that
depend on an argument. -/
structure Env where
  now_ms : ℕ
  g_dt : ℚ
  curr_pos : Vec3
  curr_vel : Vec3
  curr_loc : Location
  curr_alt_for_cmd : ℤ
  ahrs_roll_cd : ℚ
  ahrs_pitch_cd : ℚ
  ahrs_yaw_cd : ℚ
  armed : Bool
  auto_armed : Bool
  land_complete : Bool
  spool_at_unlimited : Bool
  failsafe_radio : Bool
  use_pilot_yaw : Bool
  pilot_yaw_rate : ℚ
  fence_ok_vec : Vec3 → Bool
  fence_ok_loc : Location → Bool
  wp_set_loc_ok : Location → Bool
  loc_to_vec : Location → Option Vec3
  wp_stopping_point : Vec3
  wp_reached : Bool
  wp_roll : ℚ
  wp_pitch : ℚ
  pc_roll : ℚ
  pc_pitch : ℚ
  auto_yaw_heading : ℚ
  default_yaw_mode : YawMode
  default_speed_xy : ℚ
  default_speed_down : ℚ
  default_speed_up : ℚ
  wp_accel : ℚ
  wp_accel_z : ℚ
  pilot_speed_dn : ℚ
  pilot_speed_up : ℚ
  pilot_accel_z : ℚ
  time_since_last_xy_update : ℚ
  sqrtq : ℚ → ℚ
  avoid_climb : ℚ → ℚ
  althold_lean_angle_max : ℚ
  angle_max_cd : ℚ
  closest_on_circle : Vec3
  circle_edge_loc : Location
  circle_angle_ratio : ℚ

/-- `uint32_t` wrapping subtraction `now - earlier` on millisecond clocks. -/
def sub32 (now earlier : ℕ) : ℕ :=
  (now % 4294967296 + 4294967296 - earlier % 4294967296) % 4294967296

/-- AP_Math `constrain_float`. -/
def constrain_float (v lo hi : ℚ) : ℚ :=
  if v < lo then lo else if v > hi then hi else v

/-- AP_Math `wrap_180_cd`: wrap a centidegree angle into (-18000, 18000]. -/
def wrap_180_cd (x : ℚ) : ℚ :=
  x - 36000 * (⌈x / 36000 - 1/2⌉ : ℤ)

/-- The sqrt oracle behaves as a real square root at the value `q`. -/
def SqrtOk (f : ℚ → ℚ) (q : ℚ) : Prop :=
  0 ≤ f q ∧ f q ^ 2 = q

instance (f : ℚ → ℚ) (q : ℚ) : Decidable (SqrtOk f q) := by
  unfold SqrtOk; infer_instance

/-- Modelled from the spec: `Mode::is_disarmed_or_landed` is defined
outside this source file; per the Arming/Safety Interlock (spec §4.6) it
holds when the motors are disarmed or the vehicle is landed. -/
def is_disarmed_or_landed (e : Env) : Prop :=
  e.armed = false ∨ e.land_complete = true

instance (e : Env) : Decidable (is_disarmed_or_landed e) := by
  unfold is_disarmed_or_landed; infer_instance

/-- `ModeGuided::set_yaw_state` (mode_guided.cpp:699-706). -/
def set_yaw_state (y : AutoYaw) (use_yaw : Bool) (yaw_cd : ℚ) (use_yaw_rate : Bool)
    (yaw_rate_cds : ℚ) (relative_angle : Bool) : AutoYaw :=
  if use_yaw then
    y.setFixedYaw (yaw_cd * (1/100)) relative_angle
  else if use_yaw_rate then
    y.setRate yaw_rate_cds
  else
    y

/-- `ModeGuided::pos_control_start` (mode_guided.cpp:140-157): enter
Waypoint mode, re-init the waypoint controller, point it at the stopping
point, reset yaw to the configured default. -/
def pos_control_start (e : Env) (s : State) : State :=
  { s with
    guided_mode := GuidedModeTag.WP
    wp_nav := { init_count := s.wp_nav.init_count + 1
                dest := e.wp_stopping_point
                dest_terrain_alt := false
                dest_loc := none }
    auto_yaw := s.auto_yaw.setModeToDefault e.default_yaw_mode
    pos_start_count := s.pos_start_count + 1 }

/-- `ModeGuided::vel_control_start` (mode_guided.cpp:160-175).
`init_vel_controller_xyz` resets the desired velocity to the current
velocity (collaborator behaviour). -/
def vel_control_start (e : Env) (s : State) : State :=
  { s with
    guided_mode := GuidedModeTag.Velocity
    pos_control := { s.pos_control with
      max_speed_xy := e.default_speed_xy
      max_accel_xy := e.wp_accel
      max_speed_down := -e.pilot_speed_dn
      max_speed_up := e.pilot_speed_up
      max_accel_z := e.pilot_accel_z
      desired_vel := e.curr_vel }
    vel_start_count := s.vel_start_count + 1 }

/-- `ModeGuided::posvel_control_start` (mode_guided.cpp:178-202). -/
def posvel_control_start (e : Env) (s : State) : State :=
  { s with
    guided_mode := GuidedModeTag.PosVel
    pos_control := { s.pos_control with
      max_speed_xy := e.default_speed_xy
      max_accel_xy := e.wp_accel
      pos_target := { s.pos_control.pos_target with x := e.curr_pos.x, y := e.curr_pos.y }
      desired_vel := { s.pos_control.desired_vel with x := e.curr_vel.x, y := e.curr_vel.y }
      max_speed_down := e.default_speed_down
      max_speed_up := e.default_speed_up
      max_accel_z := e.wp_accel_z }
    auto_yaw := s.auto_yaw.setMode YawMode.hold
    posvel_start_count := s.posvel_start_count + 1 }

/-- `ModeGuided::angle_control_start` (mode_guided.cpp:210-236).  Note the
source resets `climb_rate_cms`, `yaw_rate_cds` and `use_yaw_rate` but not
`thrust`/`use_thrust`. -/
def angle_control_start (e : Env) (s : State) : State :=
  let pc0 := { s.pos_control with
    max_speed_down := e.default_speed_down
    max_speed_up := e.default_speed_up
    max_accel_z := e.wp_accel_z }
  let pc := if pc0.active_z then pc0
            else { pc0 with alt_target := e.curr_pos.z
                            desired_vel := { pc0.desired_vel with z := e.curr_vel.z } }
  { s with
    guided_mode := GuidedModeTag.Angle
    pos_control := pc
    angle := { s.angle with
      update_time_ms := e.now_ms
      roll_cd := e.ahrs_roll_cd
      pitch_cd := e.ahrs_pitch_cd
      yaw_cd := e.ahrs_yaw_cd
      climb_rate_cms := 0
      yaw_rate_cds := 0
      use_yaw_rate := false }
    auto_yaw := s.auto_yaw.setMode YawMode.hold
    angle_start_count := s.angle_start_count + 1 }

/-- `ModeGuided::set_destination` — `Vector3f` overload
(mode_guided.cpp:241-267).  Returns the C++ return value together with the
post state. -/
def set_destination (e : Env) (s : State) (destination : Vec3) (use_yaw : Bool)
    (yaw_cd : ℚ) (use_yaw_rate : Bool) (yaw_rate_cds : ℚ) (relative_yaw : Bool)
    (terrain_alt : Bool) : Bool × State :=
  if e.fence_ok_vec destination = false then
    (false, s)
  else
    let s1 := if s.guided_mode = GuidedModeTag.WP then s else pos_control_start e s
    let s2 := { s1 with auto_yaw := set_yaw_state s1.auto_yaw use_yaw yaw_cd use_yaw_rate yaw_rate_cds relative_yaw }
    let s3 := { s2 with wp_nav := { s2.wp_nav with dest := destination, dest_terrain_alt := terrain_alt, dest_loc := none } }
    (true, s3)

/-- `ModeGuided::set_destination` — `Location` overload
(mode_guided.cpp:280-310).  The waypoint collaborator's
`set_wp_destination(Location)` can fail on missing terrain data; the
success answer is the `wp_set_loc_ok` oracle, and on failure the
collaborator state is not changed. -/
def set_destination_loc (e : Env) (s : State) (dest_loc : Location) (use_yaw : Bool)
    (yaw_cd : ℚ) (use_yaw_rate : Bool) (yaw_rate_cds : ℚ) (relative_yaw : Bool) :
    Bool × State :=
  if e.fence_ok_loc dest_loc = false then
    (false, s)
  else
    let s1 := if s.guided_mode = GuidedModeTag.WP then s else pos_control_start e s
    if e.wp_set_loc_ok dest_loc = false then
      (false, s1)
    else
      let s2 := { s1 with wp_nav := { s1.wp_nav with dest_loc := some dest_loc } }
      let s3 := { s2 with auto_yaw := set_yaw_state s2.auto_yaw use_yaw yaw_cd use_yaw_rate yaw_rate_cds relative_yaw }
      (true, s3)

/-- `ModeGuided::set_velocity` (mode_guided.cpp:313-331). -/
def set_velocity (e : Env) (s : State) (velocity : Vec3) (use_yaw : Bool) (yaw_cd : ℚ)
    (use_yaw_rate : Bool) (yaw_rate_cds : ℚ) (relative_yaw : Bool) : State :=
  let s1 := if s.guided_mode = GuidedModeTag.Velocity then s else vel_control_start e s
  let s2 := { s1 with auto_yaw := set_yaw_state s1.auto_yaw use_yaw yaw_cd use_yaw_rate yaw_rate_cds relative_yaw }
  { s2 with guided_vel_target_cms := velocity, vel_update_time_ms := e.now_ms }

/-- `ModeGuided::set_destination_posvel` (mode_guided.cpp:334-363). -/
def set_destination_posvel (e : Env) (s : State) (destination velocity : Vec3)
    (use_yaw : Bool) (yaw_cd : ℚ) (use_yaw_rate : Bool) (yaw_rate_cds : ℚ)
    (relative_yaw : Bool) : Bool × State :=
  if e.fence_ok_vec destination = false then
    (false, s)
  else
    let s1 := if s.guided_mode = GuidedModeTag.PosVel then s else posvel_control_start e s
    let s2 := { s1 with auto_yaw := set_yaw_state s1.auto_yaw use_yaw yaw_cd use_yaw_rate yaw_rate_cds relative_yaw }
    let s3 := { s2 with
      posvel_update_time_ms := e.now_ms
      guided_pos_target_cm := destination
      guided_vel_target_cms := velocity
      pos_control := { s2.pos_control with pos_target := destination } }
    (true, s3)

/-- `ModeGuided::set_angle` (mode_guided.cpp:366-396).  The quaternion to
euler conversion and the radian-to-centidegree scaling are AP_Math
collaborator calls; the roll/pitch/yaw arguments here are the converted
centidegree values (yaw before its `wrap_180_cd`). -/
def set_angle (e : Env) (s : State) (roll_cd pitch_cd yaw_cd_in yaw_rate_cds : ℚ)
    (climb_rate_cms_or_thrust : ℚ) (use_yaw_rate : Bool) (use_thrust : Bool) : State :=
  let s1 := if s.guided_mode = GuidedModeTag.Angle then s else angle_control_start e s
  { s1 with angle := {
      update_time_ms := e.now_ms
      roll_cd := roll_cd
      pitch_cd := pitch_cd
      yaw_cd := wrap_180_cd yaw_cd_in
      yaw_rate_cds := yaw_rate_cds
      use_yaw_rate := use_yaw_rate
      use_thrust := use_thrust
      thrust := if use_thrust then climb_rate_cms_or_thrust else 0
      climb_rate_cms := if use_thrust then 0 else climb_rate_cms_or_thrust } }

/-- `ModeGuided::set_desired_velocity_with_accel_and_fence_limits`
(mode_guided.cpp:665-696), in the `AC_AVOID_ENABLED == 0` configuration:
rate-limit the change of the desired velocity by `G_Dt` times the
configured accelerations, separately for the XY plane and the Z axis. -/
def set_desired_velocity_with_accel_and_fence_limits (e : Env) (pc : PosControl)
    (vel_des : Vec3) : PosControl :=
  let curr := pc.desired_vel
  let vel_delta := vel_des.sub curr
  let vel_delta_xy := e.sqrtq (vel_delta.x ^ 2 + vel_delta.y ^ 2)
  let vel_delta_xy_max := e.g_dt * pc.max_accel_xy
  let ratio_xy : ℚ :=
    if vel_delta_xy ≠ 0 ∧ vel_delta_xy > vel_delta_xy_max then vel_delta_xy_max / vel_delta_xy
    else 1
  let vel_delta_z_max := e.g_dt * pc.max_accel_z
  { pc with desired_vel :=
      ⟨curr.x + vel_delta.x * ratio_xy,
       curr.y + vel_delta.y * ratio_xy,
       curr.z + constrain_float vel_delta.z (-vel_delta_z_max) vel_delta_z_max⟩ }

/-- Attitude command emitted to the attitude-control collaborator. -/
inductive AttCmd
  | rateYaw (roll pitch yaw_rate : ℚ)
  | angleYaw (roll pitch yaw : ℚ)

/-- What a driver tick emitted: the forced safe spool-down, the implicit
takeoff spool-up branch, or a normal control pass with its attitude
command. -/
inductive TickOutput
  | safeSpoolDown
  | takeoffSpool
  | run (att : AttCmd)

/-- The pilot-yaw preamble shared by the position, velocity and posvel
drivers (e.g. mode_guided.cpp:417-425): returns the pilot target yaw rate
and switches `auto_yaw` to hold when the pilot commands a nonzero rate. -/
def pilot_yaw_step (e : Env) (s : State) : ℚ × State :=
  if e.failsafe_radio = false ∧ e.use_pilot_yaw = true then
    (e.pilot_yaw_rate,
     if e.pilot_yaw_rate ≠ 0 then { s with auto_yaw := s.auto_yaw.setMode YawMode.hold } else s)
  else
    (0, s)

/-- `ModeGuided::vel_control_run` (mode_guided.cpp:457-516). -/
def vel_control_run (e : Env) (s : State) : State × TickOutput :=
  let p := pilot_yaw_step e s
  let s1 := p.2
  if e.armed = true ∧ e.auto_armed = true ∧ e.land_complete = true ∧
      0 < s1.guided_vel_target_cms.z then
    (s1, TickOutput.takeoffSpool)
  else if is_disarmed_or_landed e then
    (s1, TickOutput.safeSpoolDown)
  else
    let stale := sub32 e.now_ms s1.vel_update_time_ms > 3000
    let pc2 :=
      if stale then
        (if s1.pos_control.desired_vel = Vec3.zero then s1.pos_control
         else set_desired_velocity_with_accel_and_fence_limits e s1.pos_control Vec3.zero)
      else set_desired_velocity_with_accel_and_fence_limits e s1.pos_control s1.guided_vel_target_cms
    let yaw2 :=
      if stale ∧ s1.auto_yaw.mode = YawMode.rate then s1.auto_yaw.setRate 0 else s1.auto_yaw
    let s2 := { s1 with pos_control := pc2, auto_yaw := yaw2 }
    let att :=
      if s2.auto_yaw.mode = YawMode.hold then AttCmd.rateYaw e.pc_roll e.pc_pitch p.1
      else if s2.auto_yaw.mode = YawMode.rate then AttCmd.rateYaw e.pc_roll e.pc_pitch s2.auto_yaw.rate_cds
      else AttCmd.angleYaw e.pc_roll e.pc_pitch e.auto_yaw_heading
    (s2, TickOutput.run att)

/-- `ModeGuided::posvel_control_run` (mode_guided.cpp:520-581). -/
def posvel_control_run (e : Env) (s : State) : State × TickOutput :=
  let p := pilot_yaw_step e s
  let s1 := p.2
  if is_disarmed_or_landed e then
    (s1, TickOutput.safeSpoolDown)
  else
    let stale := sub32 e.now_ms s1.posvel_update_time_ms > 3000
    let vel2 := if stale then Vec3.zero else s1.guided_vel_target_cms
    let yaw2 :=
      if stale ∧ s1.auto_yaw.mode = YawMode.rate then s1.auto_yaw.setRate 0 else s1.auto_yaw
    let s2 := { s1 with guided_vel_target_cms := vel2, auto_yaw := yaw2 }
    let dt0 := e.time_since_last_xy_update
    let dt := if dt0 ≥ 1/5 then 0 else dt0
    let newpos := s2.guided_pos_target_cm.add (s2.guided_vel_target_cms.smul dt)
    let s3 := { s2 with
      guided_pos_target_cm := newpos
      pos_control := { s2.pos_control with
        pos_target := newpos
        desired_vel := { s2.pos_control.desired_vel with
          x := s2.guided_vel_target_cms.x, y := s2.guided_vel_target_cms.y } } }
    let att :=
      if s3.auto_yaw.mode = YawMode.hold then AttCmd.rateYaw e.pc_roll e.pc_pitch p.1
      else if s3.auto_yaw.mode = YawMode.rate then AttCmd.rateYaw e.pc_roll e.pc_pitch s3.auto_yaw.rate_cds
      else AttCmd.angleYaw e.pc_roll e.pc_pitch e.auto_yaw_heading
    (s3, TickOutput.run att)

/-- Altitude-axis command emitted by the Angle driver: direct thrust
passthrough or climb-rate driven altitude control. -/
inductive AltOut
  | thrustOut (t : ℚ)
  | climbRate (c : ℚ)

/-- Output of one Angle driver tick. -/
inductive AngleOutput
  | safeSpoolDown
  | takeoffSpool
  | run (att : AttCmd) (alt : AltOut)

/-- `ModeGuided::angle_control_run` (mode_guided.cpp:585-662). -/
def angle_control_run (e : Env) (s : State) : State × AngleOutput :=
  let roll_in0 := s.angle.roll_cd
  let pitch_in0 := s.angle.pitch_cd
  let total_in := e.sqrtq (roll_in0 ^ 2 + pitch_in0 ^ 2)
  let lean_max := min e.althold_lean_angle_max e.angle_max_cd
  let lean_ratio : ℚ := if total_in > lean_max then lean_max / total_in else 1
  let roll_in1 := roll_in0 * lean_ratio
  let pitch_in1 := pitch_in0 * lean_ratio
  let yaw_in := wrap_180_cd s.angle.yaw_cd
  let yaw_rate_in0 := wrap_180_cd s.angle.yaw_rate_cds
  let climb0 : ℚ :=
    if s.angle.use_thrust then 0
    else e.avoid_climb (constrain_float s.angle.climb_rate_cms (-|e.default_speed_down|) e.default_speed_up)
  let stale := sub32 e.now_ms s.angle.update_time_ms > 1000
  let roll_in := if stale then 0 else roll_in1
  let pitch_in := if stale then 0 else pitch_in1
  let climb := if stale then 0 else climb0
  let yaw_rate_in := if stale then 0 else yaw_rate_in0
  let ang1 := if stale then { s.angle with use_thrust := false } else s.angle
  let s1 := { s with angle := ang1 }
  let positive_intent : Bool :=
    decide ((0:ℚ) < (if s1.angle.use_thrust then s1.angle.thrust else climb))
  let auto_armed : Bool := e.auto_armed || (e.armed && positive_intent)
  if e.armed = false ∨ auto_armed = false ∨ (e.land_complete = true ∧ positive_intent = false) then
    (s1, AngleOutput.safeSpoolDown)
  else if e.land_complete = true ∧ 0 < s1.angle.climb_rate_cms then
    (s1, AngleOutput.takeoffSpool)
  else
    let att :=
      if s1.angle.use_yaw_rate then AttCmd.rateYaw roll_in pitch_in yaw_rate_in
      else AttCmd.angleYaw roll_in pitch_in yaw_in
    let alt :=
      if s1.angle.use_thrust then AltOut.thrustOut s1.angle.thrust
      else AltOut.climbRate climb
    (s1, AngleOutput.run att alt)

/-- `ModeGuided::limit_clear` (mode_guided.cpp:717-723). -/
def limit_clear (s : State) : State :=
  { s with limit := { s.limit with timeout_ms := 0, alt_min_cm := 0, alt_max_cm := 0, horiz_max_cm := 0 } }

/-- `ModeGuided::limit_set` (mode_guided.cpp:726-732). -/
def limit_set (s : State) (timeout_ms : ℕ) (alt_min_cm alt_max_cm horiz_max_cm : ℚ) : State :=
  { s with limit := { s.limit with
      timeout_ms := timeout_ms, alt_min_cm := alt_min_cm,
      alt_max_cm := alt_max_cm, horiz_max_cm := horiz_max_cm } }

/-- `ModeGuided::limit_init_time_and_pos` (mode_guided.cpp:736-743). -/
def limit_init_time_and_pos (e : Env) (s : State) : State :=
  { s with limit := { s.limit with start_time := e.now_ms, start_pos := e.curr_pos } }

/-- Horizontal distance from the limit reference position to the current
position (AP_Math `get_horizontal_distance_cm` through the sqrt oracle). -/
def limit_horiz_move (e : Env) (s : State) : ℚ :=
  e.sqrtq ((e.curr_pos.x - s.limit.start_pos.x) ^ 2 + (e.curr_pos.y - s.limit.start_pos.y) ^ 2)

/-- `ModeGuided::limit_check` (mode_guided.cpp:747-777): pure read of the
limit struct against the clock and the inertial position. -/
def limit_check (e : Env) (s : State) : Bool :=
  if s.limit.timeout_ms > 0 ∧ sub32 e.now_ms s.limit.start_time ≥ s.limit.timeout_ms then true
  else if s.limit.alt_min_cm ≠ 0 ∧ e.curr_pos.z < s.limit.alt_min_cm then true
  else if s.limit.alt_max_cm ≠ 0 ∧ e.curr_pos.z > s.limit.alt_max_cm then true
  else if s.limit.horiz_max_cm > 0 ∧ limit_horiz_move e s > s.limit.horiz_max_cm then true
  else false

/-- `ModeGuided::circle_start` (mode_guided.cpp:884-894).  The new yaw
value is computed first (ROI is preserved, anything else becomes hold) and
then written, so each field is updated exactly once. -/
def circle_start (s : State) : State :=
  let yaw2 := if s.auto_yaw.mode = YawMode.roi then s.auto_yaw
              else s.auto_yaw.setMode YawMode.hold
  { s with
    guided_mode := GuidedModeTag.Circle
    circle_nav := { s.circle_nav with init_count := s.circle_nav.init_count + 1 }
    auto_yaw := yaw2 }

/-- Distance from the current position to the closest point on the circle
edge (`(inertial_nav.get_position() - circle_edge_neu).length()` through
the sqrt oracle). -/
def circle_edge_dist (e : Env) : ℚ :=
  e.sqrtq ((e.curr_pos.x - e.closest_on_circle.x) ^ 2 +
           (e.curr_pos.y - e.closest_on_circle.y) ^ 2 +
           (e.curr_pos.z - e.closest_on_circle.z) ^ 2)

/-- `ModeGuided::circle_movetoedge_start` (mode_guided.cpp:898-952).  Each
mutated collaborator field (circle center/radius, waypoint destination,
yaw state) is computed as a value first and then written once. -/
def circle_movetoedge_start (e : Env) (s : State) (circle_center : Location)
    (radius_m : ℚ) : State :=
  let center_neu :=
    match e.loc_to_vec circle_center with
    | some v => v
    | none => e.curr_pos
  let cn1 := { s.circle_nav with center := center_neu }
  let cn2 := if radius_m ≠ 0 then { cn1 with radius_cm := radius_m * 100 } else cn1
  let s2 := { s with circle_nav := cn2 }
  if circle_edge_dist e > 300 then
    let wp2 := if e.wp_set_loc_ok e.circle_edge_loc then
                 { s2.wp_nav with dest_loc := some e.circle_edge_loc }
               else s2.wp_nav
    let dist_to_center := e.sqrtq ((center_neu.x - e.curr_pos.x) ^ 2 + (center_neu.y - e.curr_pos.y) ^ 2)
    let yaw2 := if s2.auto_yaw.mode ≠ YawMode.roi then
                  (if dist_to_center > cn2.radius_cm ∧ dist_to_center > 500 then
                     s2.auto_yaw.setModeToDefault e.default_yaw_mode
                   else s2.auto_yaw.setMode YawMode.hold)
                else s2.auto_yaw
    { s2 with guided_mode := GuidedModeTag.CircleMoveToEdge, wp_nav := wp2, auto_yaw := yaw2 }
  else
    circle_start s2

set_option genInjectivity false in
set_option genSizeOfSpec false in
/-- `AP_Mission::Mission_Command` as consumed by this file: command id,
`p1` packed parameter, and the command location. -/
structure MissionCmd where
  id : ℕ
  p1 : ℕ
  content_loc : Location

/-- `ModeGuided::loc_from_cmd` (mode_guided.cpp:838-860): substitute the
current latitude/longitude when zero and the current altitude (converted
into the command's altitude frame by a collaborator call, carried in
`curr_alt_for_cmd`) when the altitude is zero. -/
def loc_from_cmd (e : Env) (cmd : MissionCmd) : Location :=
  let ret := cmd.content_loc
  let ret1 := if ret.lat = 0 ∧ ret.lng = 0 then { ret with lat := e.curr_loc.lat, lng := e.curr_loc.lng }
              else ret
  if ret1.alt = 0 then { ret1 with alt := e.curr_alt_for_cmd } else ret1

/-- `ModeGuided::do_circle` (mode_guided.cpp:865-874): radius in meters is
the high byte of `p1`. -/
def do_circle (e : Env) (s : State) (cmd : MissionCmd) : State :=
  circle_movetoedge_start e s (loc_from_cmd e cmd) ((cmd.p1 / 256) % 256 : ℕ)

/-- `ModeGuided::start_command` (mode_guided.cpp:955-981): the dispatch
body, including the loiter-turns circle case, is commented out; the
function unconditionally returns success and does nothing. -/
def start_command (s : State) (_cmd : MissionCmd) : Bool × State :=
  (true, s)

/-- `ModeGuided::verify_circle` (mode_guided.cpp:1019-1049).  In the
move-to-edge state it transitions to Circle on arrival (the locally
recomputed circle center is dead code in this source version); otherwise
it compares the traversed-angle ratio reported by the circle collaborator
with the commanded number of turns (`LOWBYTE(p1)`). -/
def verify_circle (e : Env) (s : State) (cmd : MissionCmd) : Bool × State :=
  if s.guided_mode = GuidedModeTag.CircleMoveToEdge then
    if e.wp_reached then
      match e.loc_to_vec cmd.content_loc with
      | none => (true, s)
      | some _ => (false, circle_start s)
    else
      (false, s)
  else
    (decide (e.circle_angle_ratio ≥ (cmd.p1 % 256 : ℕ)), s)

/-- A baseline collaborator environment for concrete evaluations. -/
def env0 : Env where
  now_ms := 0
  g_dt := 1/100
  curr_pos := ⟨0, 0, 0⟩
  curr_vel := ⟨0, 0, 0⟩
  curr_loc := ⟨0, 0, 0⟩
  curr_alt_for_cmd := 0
  ahrs_roll_cd := 0
  ahrs_pitch_cd := 0
  ahrs_yaw_cd := 0
  armed := true
  auto_armed := true
  land_complete := false
  spool_at_unlimited := true
  failsafe_radio := false
  use_pilot_yaw := false
  pilot_yaw_rate := 0
  fence_ok_vec := fun _ => true
  fence_ok_loc := fun _ => true
  wp_set_loc_ok := fun _ => true
  loc_to_vec := fun _ => some ⟨0, 0, 0⟩
  wp_stopping_point := ⟨0, 0, 0⟩
  wp_reached := false
  wp_roll := 0
  wp_pitch := 0
  pc_roll := 0
  pc_pitch := 0
  auto_yaw_heading := 0
  default_yaw_mode := YawMode.lookAtNextWP
  default_speed_xy := 500
  default_speed_down := -150
  default_speed_up := 250
  wp_accel := 100
  wp_accel_z := 100
  pilot_speed_dn := 150
  pilot_speed_up := 250
  pilot_accel_z := 250
  time_since_last_xy_update := 1/100
  sqrtq := fun _ => 0
  avoid_climb := fun c => c
  althold_lean_angle_max := 4500
  angle_max_cd := 4500
  closest_on_circle := ⟨0, 0, 0⟩
  circle_edge_loc := ⟨0, 0, 0⟩
  circle_angle_ratio := 0

/-- A baseline guided-mode state for concrete evaluations. -/
def st0 : State where
  guided_mode := GuidedModeTag.WP
  guided_pos_target_cm := ⟨0, 0, 0⟩
  guided_vel_target_cms := ⟨0, 0, 0⟩
  posvel_update_time_ms := 0
  vel_update_time_ms := 0
  angle := { update_time_ms := 0, roll_cd := 0, pitch_cd := 0, yaw_cd := 0,
             yaw_rate_cds := 0, climb_rate_cms := 0, thrust := 0,
             use_yaw_rate := false, use_thrust := false }
  limit := { timeout_ms := 0, alt_min_cm := 0, alt_max_cm := 0, horiz_max_cm := 0,
             start_time := 0, start_pos := ⟨0, 0, 0⟩ }
  auto_yaw := { mode := YawMode.hold, fixed_yaw_deg := 0, fixed_rel := false, rate_cds := 0 }
  wp_nav := { init_count := 0, dest := ⟨0, 0, 0⟩, dest_terrain_alt := false, dest_loc := none }
  pos_control := { desired_vel := ⟨0, 0, 0⟩, pos_target := ⟨0, 0, 0⟩, alt_target := 0,
                   active_z := true, max_speed_xy := 500, max_accel_xy := 100,
                   max_speed_down := -150, max_speed_up := 250, max_accel_z := 100 }
  circle_nav := { center := ⟨0, 0, 0⟩, radius_cm := 1000, init_count := 0 }
  pos_start_count := 0
  vel_start_count := 0
  posvel_start_count := 0
  angle_start_count := 0

/-- With the pilot-yaw option disabled the pilot preamble is a no-op. -/
theorem pilot_yaw_step_inactive (e : Env) (s : State) (hp : e.use_pilot_yaw = false) :
    pilot_yaw_step e s = (0, s) := by
  unfold pilot_yaw_step
  simp [hp]

/-- C1: when the geofence collaborator rejects the destination, each of
`set_destination` (both overloads) and `set_destination_posvel` returns
failure and the post state — sub-mode, stored targets, timestamps, angle
state, yaw state, everything — is exactly the pre-call state. -/
theorem C1_fence_rejection_no_mutation (e : Env) (s : State) (d : Vec3) (l : Location)
    (uy : Bool) (ycd : ℚ) (uyr : Bool) (yr : ℚ) (ry ta : Bool) (v : Vec3)
    (hvec : e.fence_ok_vec d = false) (hloc : e.fence_ok_loc l = false) :
    set_destination e s d uy ycd uyr yr ry ta = (false, s) ∧
    set_destination_loc e s l uy ycd uyr yr ry = (false, s) ∧
    set_destination_posvel e s d v uy ycd uyr yr ry = (false, s) := by
  refine ⟨?_, ?_, ?_⟩
  · unfold set_destination
    rw [hvec]
    rfl
  · unfold set_destination_loc
    rw [hloc]
    rfl
  · unfold set_destination_posvel
    rw [hvec]
    rfl

/-- C1 witness: a concrete rejected call leaves the baseline state intact. -/
theorem C1_fence_rejection_no_mutation_witness :
    set_destination { env0 with fence_ok_vec := fun _ => false, fence_ok_loc := fun _ => false }
        st0 ⟨1, 2, 3⟩ false 0 false 0 false false = (false, st0) ∧
    set_destination_loc { env0 with fence_ok_vec := fun _ => false, fence_ok_loc := fun _ => false }
        st0 ⟨7, 8, 9⟩ false 0 false 0 false = (false, st0) ∧
    set_destination_posvel { env0 with fence_ok_vec := fun _ => false, fence_ok_loc := fun _ => false }
        st0 ⟨1, 2, 3⟩ ⟨4, 5, 6⟩ false 0 false 0 false = (false, st0) :=
  C1_fence_rejection_no_mutation _ st0 ⟨1, 2, 3⟩ ⟨7, 8, 9⟩ false 0 false 0 false false ⟨4, 5, 6⟩ rfl rfl

/-- C6: `limit_check` is a pure read (its type mutates nothing) that
returns true exactly when some enabled limit is breached: timeout
configured and elapsed time at least the timeout, or a nonzero altitude
floor/ceiling crossed, or a positive horizontal limit exceeded; with all
four thresholds zero it returns false for every time and position. -/
theorem C6_limit_check_iff (e : Env) (s : State) :
    (limit_check e s = true ↔
      (s.limit.timeout_ms > 0 ∧ sub32 e.now_ms s.limit.start_time ≥ s.limit.timeout_ms) ∨
      (s.limit.alt_min_cm ≠ 0 ∧ e.curr_pos.z < s.limit.alt_min_cm) ∨
      (s.limit.alt_max_cm ≠ 0 ∧ e.curr_pos.z > s.limit.alt_max_cm) ∨
      (s.limit.horiz_max_cm > 0 ∧ limit_horiz_move e s > s.limit.horiz_max_cm)) ∧
    (s.limit.timeout_ms = 0 → s.limit.alt_min_cm = 0 → s.limit.alt_max_cm = 0 →
      s.limit.horiz_max_cm = 0 → limit_check e s = false) := by
  constructor
  · unfold limit_check
    split_ifs with h1 h2 h3 h4 <;> simp_all
  · intro h1 h2 h3 h4
    unfold limit_check
    simp [h1, h2, h3, h4]

/-- C6 witness: the spec's three scenarios — a 5000 ms timeout breached at
5001 ms, an altitude 99 below a 100 cm floor, and all limits disabled. -/
theorem C6_limit_check_iff_witness :
    limit_check { env0 with now_ms := 5001 }
      { st0 with limit := { st0.limit with timeout_ms := 5000 } } = true ∧
    limit_check { env0 with curr_pos := ⟨0, 0, 99⟩ }
      { st0 with limit := { st0.limit with alt_min_cm := 100 } } = true ∧
    limit_check { env0 with now_ms := 123456, curr_pos := ⟨777, -5, 99999⟩ } st0 = false := by
  refine ⟨?_, ?_, ?_⟩
  · exact (C6_limit_check_iff { env0 with now_ms := 5001 }
      { st0 with limit := { st0.limit with timeout_ms := 5000 } }).1.mpr (by decide)
  · exact (C6_limit_check_iff { env0 with curr_pos := ⟨0, 0, 99⟩ }
      { st0 with limit := { st0.limit with alt_min_cm := 100 } }).1.mpr (by decide)
  · exact (C6_limit_check_iff { env0 with now_ms := 123456, curr_pos := ⟨777, -5, 99999⟩ }
      st0).2 rfl rfl rfl rfl

/-- Mode and circle-init-counter effect of `circle_movetoedge_start`:
beyond 300 cm it enters CircleMoveToEdge without initializing the circle
controller, otherwise it starts circling immediately. -/
theorem circle_movetoedge_start_mode_count (e : Env) (s : State) (c : Location) (r : ℚ) :
    (circle_movetoedge_start e s c r).guided_mode =
      (if circle_edge_dist e > 300 then GuidedModeTag.CircleMoveToEdge else GuidedModeTag.Circle) ∧
    (circle_movetoedge_start e s c r).circle_nav.init_count =
      (if circle_edge_dist e > 300 then s.circle_nav.init_count
       else s.circle_nav.init_count + 1) := by
  unfold circle_movetoedge_start circle_start
  split_ifs <;> exact ⟨rfl, rfl⟩

/-- C10: `start_command` unconditionally reports success and performs no
dispatch and no state change, so no mission command can initiate the
circle sub-mode through it; `do_circle` (reachable only through other
callers) by contrast always enters one of the two circle sub-modes. -/
theorem C10_start_command_constant (s : State) (cmd : MissionCmd) (e : Env) (s' : State)
    (cmd' : MissionCmd) :
    start_command s cmd = (true, s) ∧
    ((do_circle e s' cmd').guided_mode = GuidedModeTag.CircleMoveToEdge ∨
     (do_circle e s' cmd').guided_mode = GuidedModeTag.Circle) := by
  refine ⟨rfl, ?_⟩
  unfold do_circle
  rw [(circle_movetoedge_start_mode_count e s' (loc_from_cmd e cmd')
    (((cmd'.p1 / 256) % 256 : ℕ) : ℚ)).1]
  by_cases h : circle_edge_dist e > 300
  · rw [if_pos h]
    left
    rfl
  · rw [if_neg h]
    right
    rfl

/-- C2 counterexample: the claim "after a geofence-passing call whose
waypoint forwarding fails, the GuidedSubMode and yaw state are unchanged
from their values before the call" is false: starting from Velocity mode,
the Waypoint initializer has already switched the mode to Waypoint and
reset the yaw state when the navigation failure is detected. -/
theorem C2_unreachable_mutates_mode_counterexample :
    (set_destination_loc { env0 with wp_set_loc_ok := fun _ => false }
        { st0 with guided_mode := GuidedModeTag.Velocity } ⟨1, 2, 3⟩ false 0 false 0 false).1
      = false ∧
    ({ st0 with guided_mode := GuidedModeTag.Velocity } : State).guided_mode
      = GuidedModeTag.Velocity ∧
    (set_destination_loc { env0 with wp_set_loc_ok := fun _ => false }
        { st0 with guided_mode := GuidedModeTag.Velocity } ⟨1, 2, 3⟩ false 0 false 0 false).2.guided_mode
      = GuidedModeTag.WP ∧
    ({ st0 with guided_mode := GuidedModeTag.Velocity } : State).auto_yaw.mode = YawMode.hold ∧
    (set_destination_loc { env0 with wp_set_loc_ok := fun _ => false }
        { st0 with guided_mode := GuidedModeTag.Velocity } ⟨1, 2, 3⟩ false 0 false 0 false).2.auto_yaw.mode
      = YawMode.lookAtNextWP := by
  decide

/-- C2 (amended): when the geofence passes and the waypoint collaborator
rejects the Location destination (missing terrain data), the call returns
failure, never records a target, never applies the yaw-state step, and
leaves the stored targets, timestamps and angle state untouched; if the
vehicle was already in Waypoint mode the entire state is unchanged, and
otherwise the only mutation is the Waypoint-mode initializer (mode set to
Waypoint, waypoint controller re-initialized, yaw reset to the configured
default), which runs before the failure is detected. -/
theorem C2_unreachable_destination_no_further_mutation (e : Env) (s : State) (l : Location)
    (uy : Bool) (ycd : ℚ) (uyr : Bool) (yr : ℚ) (ry : Bool)
    (hfence : e.fence_ok_loc l = true) (hwp : e.wp_set_loc_ok l = false) :
    set_destination_loc e s l uy ycd uyr yr ry =
      (false, if s.guided_mode = GuidedModeTag.WP then s else pos_control_start e s) ∧
    (set_destination_loc e s l uy ycd uyr yr ry).2.guided_pos_target_cm = s.guided_pos_target_cm ∧
    (set_destination_loc e s l uy ycd uyr yr ry).2.guided_vel_target_cms = s.guided_vel_target_cms ∧
    (set_destination_loc e s l uy ycd uyr yr ry).2.posvel_update_time_ms = s.posvel_update_time_ms ∧
    (set_destination_loc e s l uy ycd uyr yr ry).2.vel_update_time_ms = s.vel_update_time_ms ∧
    (set_destination_loc e s l uy ycd uyr yr ry).2.angle = s.angle ∧
    (s.guided_mode = GuidedModeTag.WP → set_destination_loc e s l uy ycd uyr yr ry = (false, s)) := by
  have hbody : set_destination_loc e s l uy ycd uyr yr ry =
      (false, if s.guided_mode = GuidedModeTag.WP then s else pos_control_start e s) := by
    unfold set_destination_loc
    simp [hfence, hwp]
  refine ⟨hbody, ?_, ?_, ?_, ?_, ?_, ?_⟩ <;> rw [hbody]
  · split_ifs <;> simp [pos_control_start]
  · split_ifs <;> simp [pos_control_start]
  · split_ifs <;> simp [pos_control_start]
  · split_ifs <;> simp [pos_control_start]
  · split_ifs <;> simp [pos_control_start]
  · intro hm
    simp [hm]

/-- C2 witness: concrete geofence-passing, terrain-failing call from
Waypoint mode returns failure with the state untouched. -/
theorem C2_unreachable_destination_no_further_mutation_witness :
    set_destination_loc { env0 with wp_set_loc_ok := fun _ => false } st0
      ⟨1, 2, 3⟩ false 0 false 0 false = (false, st0) :=
  (C2_unreachable_destination_no_further_mutation
    { env0 with wp_set_loc_ok := fun _ => false } st0 ⟨1, 2, 3⟩ false 0 false 0 false
    rfl rfl).2.2.2.2.2.2 rfl

/-- C9: each ingestion entry point is idempotent with respect to mode
selection: called while its sub-mode is already active it never re-runs
that mode's initializer (the ghost initializer counters are unchanged),
and `set_destination` called in Waypoint mode with `use_yaw = false` and
`use_yaw_rate = false` leaves the previously-set yaw state untouched. -/
theorem C9_ingestion_idempotent_mode_selection (e : Env) (s : State) (d v : Vec3)
    (l : Location) (uy : Bool) (ycd : ℚ) (uyr : Bool) (yr : ℚ) (ry ta : Bool)
    (rcd pcd aycd ayr cr : ℚ) (auyr aut : Bool) :
    (s.guided_mode = GuidedModeTag.WP →
      (set_destination e s d uy ycd uyr yr ry ta).2.pos_start_count = s.pos_start_count ∧
      (set_destination_loc e s l uy ycd uyr yr ry).2.pos_start_count = s.pos_start_count ∧
      (set_destination e s d false 0 false 0 ry ta).2.auto_yaw = s.auto_yaw ∧
      (set_destination_loc e s l false 0 false 0 ry).2.auto_yaw = s.auto_yaw) ∧
    (s.guided_mode = GuidedModeTag.Velocity →
      (set_velocity e s v uy ycd uyr yr ry).vel_start_count = s.vel_start_count) ∧
    (s.guided_mode = GuidedModeTag.PosVel →
      (set_destination_posvel e s d v uy ycd uyr yr ry).2.posvel_start_count = s.posvel_start_count) ∧
    (s.guided_mode = GuidedModeTag.Angle →
      (set_angle e s rcd pcd aycd ayr cr auyr aut).angle_start_count = s.angle_start_count) := by
  refine ⟨?_, ?_, ?_, ?_⟩
  · intro hm
    unfold set_destination set_destination_loc
    refine ⟨?_, ?_, ?_, ?_⟩ <;> split_ifs <;> simp [hm, set_yaw_state]
  · intro hm
    unfold set_velocity
    simp [hm, apply_ite State.vel_start_count, set_yaw_state]
  · intro hm
    unfold set_destination_posvel
    split_ifs <;> simp [hm, set_yaw_state]
  · intro hm
    unfold set_angle
    simp [hm]

/-- C9 witness: concrete repeat-ingestion calls in each matching sub-mode
leave the ghost initializer counters (and, for `set_destination` without
yaw flags, the yaw state) unchanged. -/
theorem C9_ingestion_idempotent_mode_selection_witness :
    (set_destination env0 st0 ⟨1, 2, 3⟩ false 0 false 0 false false).2.pos_start_count
      = st0.pos_start_count ∧
    (set_destination env0 st0 ⟨1, 2, 3⟩ false 0 false 0 false false).2.auto_yaw = st0.auto_yaw ∧
    (set_velocity env0 { st0 with guided_mode := GuidedModeTag.Velocity }
        ⟨1, 1, 1⟩ false 0 false 0 false).vel_start_count = st0.vel_start_count ∧
    (set_destination_posvel env0 { st0 with guided_mode := GuidedModeTag.PosVel }
        ⟨1, 2, 3⟩ ⟨4, 5, 6⟩ false 0 false 0 false).2.posvel_start_count = st0.posvel_start_count ∧
    (set_angle env0 { st0 with guided_mode := GuidedModeTag.Angle }
        100 200 300 0 0 false false).angle_start_count = st0.angle_start_count := by
  refine ⟨?_, ?_, ?_, ?_, ?_⟩
  · exact ((C9_ingestion_idempotent_mode_selection env0 st0 ⟨1, 2, 3⟩ ⟨1, 1, 1⟩ ⟨0, 0, 0⟩
      false 0 false 0 false false 100 200 300 0 0 false false).1 rfl).1
  · exact ((C9_ingestion_idempotent_mode_selection env0 st0 ⟨1, 2, 3⟩ ⟨1, 1, 1⟩ ⟨0, 0, 0⟩
      false 0 false 0 false false 100 200 300 0 0 false false).1 rfl).2.2.1
  · exact ((C9_ingestion_idempotent_mode_selection env0
      { st0 with guided_mode := GuidedModeTag.Velocity } ⟨1, 2, 3⟩ ⟨1, 1, 1⟩ ⟨0, 0, 0⟩
      false 0 false 0 false false 100 200 300 0 0 false false).2.1 rfl)
  · exact ((C9_ingestion_idempotent_mode_selection env0
      { st0 with guided_mode := GuidedModeTag.PosVel } ⟨1, 2, 3⟩ ⟨4, 5, 6⟩ ⟨0, 0, 0⟩
      false 0 false 0 false false 100 200 300 0 0 false false).2.2.1 rfl)
  · exact ((C9_ingestion_idempotent_mode_selection env0
      { st0 with guided_mode := GuidedModeTag.Angle } ⟨1, 2, 3⟩ ⟨4, 5, 6⟩ ⟨0, 0, 0⟩
      false 0 false 0 false false 100 200 300 0 0 false false).2.2.2 rfl)

/-- C7: if the computed distance to the closest circle-edge point exceeds
300 cm, `circle_movetoedge_start` enters CircleMoveToEdge without
initializing the circle controller, otherwise it enters Circle
immediately; from CircleMoveToEdge, `verify_circle` changes nothing while
the waypoint collaborator has not reported arrival, transitions to Circle
on the first tick it does (with the center location resolvable), and once
in Circle it never re-enters or re-initializes the circle controller — so
the transition happens exactly once. -/
theorem C7_circle_edge_transition (e : Env) (s : State) (c : Location) (r : ℚ)
    (cmd : MissionCmd) :
    (circle_edge_dist e > 300 →
      (circle_movetoedge_start e s c r).guided_mode = GuidedModeTag.CircleMoveToEdge ∧
      (circle_movetoedge_start e s c r).circle_nav.init_count = s.circle_nav.init_count) ∧
    (circle_edge_dist e ≤ 300 →
      (circle_movetoedge_start e s c r).guided_mode = GuidedModeTag.Circle ∧
      (circle_movetoedge_start e s c r).circle_nav.init_count = s.circle_nav.init_count + 1) ∧
    (s.guided_mode = GuidedModeTag.CircleMoveToEdge → e.wp_reached = false →
      verify_circle e s cmd = (false, s)) ∧
    (s.guided_mode = GuidedModeTag.CircleMoveToEdge → e.wp_reached = true →
      (e.loc_to_vec cmd.content_loc).isSome = true →
      verify_circle e s cmd = (false, circle_start s) ∧
      (verify_circle e s cmd).2.guided_mode = GuidedModeTag.Circle) ∧
    (s.guided_mode = GuidedModeTag.Circle → (verify_circle e s cmd).2 = s) := by
  refine ⟨?_, ?_, ?_, ?_, ?_⟩
  · intro hgt
    obtain ⟨hm, hc⟩ := circle_movetoedge_start_mode_count e s c r
    rw [hm, hc, if_pos hgt, if_pos hgt]
    exact ⟨rfl, rfl⟩
  · intro hle
    obtain ⟨hm, hc⟩ := circle_movetoedge_start_mode_count e s c r
    rw [hm, hc, if_neg (not_lt.mpr hle), if_neg (not_lt.mpr hle)]
    exact ⟨rfl, rfl⟩
  · intro hm hreach
    unfold verify_circle
    simp [hm, hreach]
  · intro hm hreach hsome
    obtain ⟨v, hv⟩ := Option.isSome_iff_exists.mp hsome
    unfold verify_circle
    rw [hv] at *
    simp [hm, hreach, hv, circle_start]
  · intro hm
    unfold verify_circle
    rw [hm]
    simp

/-- C7 witness: concrete instances of all five transition facts. -/
theorem C7_circle_edge_transition_witness :
    (circle_movetoedge_start { env0 with sqrtq := fun _ => 400 } st0 ⟨1, 2, 3⟩ 10).guided_mode
      = GuidedModeTag.CircleMoveToEdge ∧
    (circle_movetoedge_start env0 st0 ⟨1, 2, 3⟩ 10).guided_mode = GuidedModeTag.Circle ∧
    verify_circle env0 { st0 with guided_mode := GuidedModeTag.CircleMoveToEdge } ⟨18, 257, ⟨0, 0, 0⟩⟩
      = (false, { st0 with guided_mode := GuidedModeTag.CircleMoveToEdge }) ∧
    (verify_circle { env0 with wp_reached := true }
        { st0 with guided_mode := GuidedModeTag.CircleMoveToEdge } ⟨18, 257, ⟨0, 0, 0⟩⟩).2.guided_mode
      = GuidedModeTag.Circle ∧
    (verify_circle env0 { st0 with guided_mode := GuidedModeTag.Circle } ⟨18, 257, ⟨0, 0, 0⟩⟩).2
      = { st0 with guided_mode := GuidedModeTag.Circle } := by
  refine ⟨?_, ?_, ?_, ?_, ?_⟩
  · exact ((C7_circle_edge_transition { env0 with sqrtq := fun _ => 400 } st0 ⟨1, 2, 3⟩ 10
      ⟨18, 257, ⟨0, 0, 0⟩⟩).1 (by decide)).1
  · exact ((C7_circle_edge_transition env0 st0 ⟨1, 2, 3⟩ 10 ⟨18, 257, ⟨0, 0, 0⟩⟩).2.1 (by decide)).1
  · exact (C7_circle_edge_transition env0 { st0 with guided_mode := GuidedModeTag.CircleMoveToEdge }
      ⟨1, 2, 3⟩ 10 ⟨18, 257, ⟨0, 0, 0⟩⟩).2.2.1 rfl rfl
  · exact ((C7_circle_edge_transition { env0 with wp_reached := true }
      { st0 with guided_mode := GuidedModeTag.CircleMoveToEdge }
      ⟨1, 2, 3⟩ 10 ⟨18, 257, ⟨0, 0, 0⟩⟩).2.2.2.1 rfl rfl rfl).2
  · exact (C7_circle_edge_transition env0 { st0 with guided_mode := GuidedModeTag.Circle }
      ⟨1, 2, 3⟩ 10 ⟨18, 257, ⟨0, 0, 0⟩⟩).2.2.2.2 rfl

/-- C4: once more than 1000 ms have passed since the last angle-target
update, the Angle driver forces `use_thrust` off in the stored state, and
— whenever the tick reaches its output stage (armed, auto-armed, not
landed) — commands zero roll, zero pitch, zero yaw rate (in the
yaw-rate form) and the climb-rate output path with a zero climb rate,
even if the last ingested target had `use_thrust = true`. -/
theorem C4_angle_timeout_zeroes_targets (e : Env) (s : State)
    (hstale : sub32 e.now_ms s.angle.update_time_ms > 1000) :
    (angle_control_run e s).1.angle.use_thrust = false ∧
    (e.armed = true → e.auto_armed = true → e.land_complete = false →
      (angle_control_run e s).2 =
        AngleOutput.run
          (if s.angle.use_yaw_rate then AttCmd.rateYaw 0 0 0
           else AttCmd.angleYaw 0 0 (wrap_180_cd s.angle.yaw_cd))
          (AltOut.climbRate 0)) := by
  constructor
  · unfold angle_control_run
    simp only [hstale, if_true, if_pos]
    split_ifs <;> rfl
  · intro ha hau hl
    unfold angle_control_run
    simp [hstale, ha, hau, hl]

/-- C4 witness: a stale thrust-mode yaw-rate target (thrust 1, roll 3000
cd, yaw rate 500 cd/s) is replaced by zero attitude and a zero climb rate
on the climb-rate path. -/
theorem C4_angle_timeout_zeroes_targets_witness :
    ((angle_control_run { env0 with now_ms := 2000 }
       { st0 with guided_mode := GuidedModeTag.Angle,
                  angle := { st0.angle with
                    roll_cd := 3000, pitch_cd := 1000, yaw_rate_cds := 500,
                    climb_rate_cms := 100, thrust := 1, use_yaw_rate := true,
                    use_thrust := true } }).1.angle.use_thrust
      = false) ∧
    ((angle_control_run { env0 with now_ms := 2000 }
       { st0 with guided_mode := GuidedModeTag.Angle,
                  angle := { st0.angle with
                    roll_cd := 3000, pitch_cd := 1000, yaw_rate_cds := 500,
                    climb_rate_cms := 100, thrust := 1, use_yaw_rate := true,
                    use_thrust := true } }).2 =
      AngleOutput.run (AttCmd.rateYaw 0 0 0) (AltOut.climbRate 0)) := by
  have h := C4_angle_timeout_zeroes_targets { env0 with now_ms := 2000 }
    { st0 with guided_mode := GuidedModeTag.Angle,
               angle := { st0.angle with
                 roll_cd := 3000, pitch_cd := 1000, yaw_rate_cds := 500,
                 climb_rate_cms := 100, thrust := 1, use_yaw_rate := true,
                 use_thrust := true } } (by decide)
  refine ⟨h.1, ?_⟩
  have h2 := h.2 rfl rfl rfl
  rw [h2]
  rfl

/-- C5: in a PositionVelocity tick that reaches its control stage, with a
fresh target: if the position controller's inter-update interval is below
0.2 s the position pushed to the position-control collaborator (and the
newly stored target) is the stored target advanced by velocity times that
interval; from 0.2 s up, the interval is forced to zero and the stored
position target is pushed unchanged (the latter regardless of target
freshness). -/
theorem C5_posvel_dead_reckoning (e : Env) (s : State)
    (hd : ¬ is_disarmed_or_landed e) (hp : e.use_pilot_yaw = false) :
    (sub32 e.now_ms s.posvel_update_time_ms ≤ 3000 → e.time_since_last_xy_update < 1/5 →
      (posvel_control_run e s).1.pos_control.pos_target =
        s.guided_pos_target_cm.add (s.guided_vel_target_cms.smul e.time_since_last_xy_update) ∧
      (posvel_control_run e s).1.guided_pos_target_cm =
        s.guided_pos_target_cm.add (s.guided_vel_target_cms.smul e.time_since_last_xy_update)) ∧
    (e.time_since_last_xy_update ≥ 1/5 →
      (posvel_control_run e s).1.pos_control.pos_target = s.guided_pos_target_cm ∧
      (posvel_control_run e s).1.guided_pos_target_cm = s.guided_pos_target_cm) := by
  have hsmul0 : ∀ a v : Vec3, a.add (v.smul 0) = a := by
    intro a v
    cases a
    simp [Vec3.add, Vec3.smul]
  constructor
  · intro hfresh hdt
    have hdt2 : ¬ (5:ℚ)⁻¹ ≤ e.time_since_last_xy_update := by
      rw [← one_div]
      exact not_le.mpr hdt
    unfold posvel_control_run
    rw [pilot_yaw_step_inactive e s hp]
    simp [hd, not_lt.mpr hfresh, hdt2]
  · intro hdt
    have hdt2 : (5:ℚ)⁻¹ ≤ e.time_since_last_xy_update := by
      rw [← one_div]
      exact hdt
    unfold posvel_control_run
    rw [pilot_yaw_step_inactive e s hp]
    simp [hd, hdt2, hsmul0]

/-- C5 witness: with a 10 ms interval the pushed position is advanced by
velocity times 0.01 s; with a 250 ms interval it is pushed unchanged. -/
theorem C5_posvel_dead_reckoning_witness :
    ((posvel_control_run env0
        { st0 with guided_mode := GuidedModeTag.PosVel,
                   guided_pos_target_cm := ⟨100, 200, 300⟩,
                   guided_vel_target_cms := ⟨100, -200, 400⟩ }).1.pos_control.pos_target
      = ⟨101, 198, 304⟩) ∧
    ((posvel_control_run { env0 with time_since_last_xy_update := 1/4 }
        { st0 with guided_mode := GuidedModeTag.PosVel,
                   guided_pos_target_cm := ⟨100, 200, 300⟩,
                   guided_vel_target_cms := ⟨100, -200, 400⟩ }).1.pos_control.pos_target
      = ⟨100, 200, 300⟩) := by
  constructor
  · have h := ((C5_posvel_dead_reckoning env0
      { st0 with guided_mode := GuidedModeTag.PosVel,
                 guided_pos_target_cm := ⟨100, 200, 300⟩,
                 guided_vel_target_cms := ⟨100, -200, 400⟩ }
      (by decide) rfl).1 (by decide) (by norm_num [env0])).1
    rw [h]
    norm_num [env0, Vec3.add, Vec3.smul]
  · have h := ((C5_posvel_dead_reckoning { env0 with time_since_last_xy_update := 1/4 }
      { st0 with guided_mode := GuidedModeTag.PosVel,
                 guided_pos_target_cm := ⟨100, 200, 300⟩,
                 guided_vel_target_cms := ⟨100, -200, 400⟩ }
      (by decide) rfl).2 (by norm_num)).1
    rw [h]

/-- `constrain_float` into a symmetric interval bounds the magnitude. -/
theorem constrain_float_abs_le (d m : ℚ) (hm : 0 ≤ m) :
    |constrain_float d (-m) m| ≤ m := by
  unfold constrain_float
  split_ifs with h1 h2
  · rw [abs_neg, abs_of_nonneg hm]
  · rw [abs_of_nonneg hm]
  · push_neg at h1 h2
    exact abs_le.mpr ⟨h1, h2⟩

/-- Arithmetic core of the XY limiter bound: scaling the delta by
`m / sv` when its reported norm `sv` exceeds the budget `m` keeps the
squared norm within `m ^ 2`. -/
theorem xy_ratio_bound (dx dy sv m : ℚ) (hs0 : 0 ≤ sv) (hs2 : sv ^ 2 = dx ^ 2 + dy ^ 2)
    (_hm : 0 ≤ m) :
    (dx * (if sv ≠ 0 ∧ sv > m then m / sv else 1)) ^ 2 +
      (dy * (if sv ≠ 0 ∧ sv > m then m / sv else 1)) ^ 2 ≤ m ^ 2 := by
  split_ifs with h
  · obtain ⟨hne, hgt⟩ := h
    have hexp : (dx * (m / sv)) ^ 2 + (dy * (m / sv)) ^ 2 = (dx ^ 2 + dy ^ 2) * (m / sv) ^ 2 := by
      ring
    rw [hexp, ← hs2]
    have heq : sv ^ 2 * (m / sv) ^ 2 = m ^ 2 := by
      field_simp
    rw [heq]
  · push_neg at h
    have hexp : (dx * 1) ^ 2 + (dy * 1) ^ 2 = dx ^ 2 + dy ^ 2 := by ring
    rw [hexp, ← hs2]
    rcases eq_or_ne sv 0 with h0 | hne
    · rw [h0]
      have h00 : (0:ℚ) ^ 2 = 0 := by norm_num
      rw [h00]
      exact sq_nonneg m
    · exact pow_le_pow_left₀ hs0 (h hne) 2

/-- The acceleration limiter changes the desired velocity per tick by at
most `G_Dt` times the configured accelerations: the squared XY change is
bounded by the squared XY budget and the absolute Z change by the Z
budget (given a faithful sqrt answer for the XY delta). -/
theorem accel_limit_change_bound (e : Env) (pc : PosControl) (vel_des : Vec3)
    (hs : SqrtOk e.sqrtq ((vel_des.x - pc.desired_vel.x) ^ 2 + (vel_des.y - pc.desired_vel.y) ^ 2))
    (hg : 0 ≤ e.g_dt) (hxy : 0 ≤ pc.max_accel_xy) (hz : 0 ≤ pc.max_accel_z) :
    (((set_desired_velocity_with_accel_and_fence_limits e pc vel_des).desired_vel.x
        - pc.desired_vel.x) ^ 2 +
     ((set_desired_velocity_with_accel_and_fence_limits e pc vel_des).desired_vel.y
        - pc.desired_vel.y) ^ 2
       ≤ (e.g_dt * pc.max_accel_xy) ^ 2) ∧
    |(set_desired_velocity_with_accel_and_fence_limits e pc vel_des).desired_vel.z
        - pc.desired_vel.z|
       ≤ e.g_dt * pc.max_accel_z := by
  obtain ⟨hs0, hs2⟩ := hs
  have hm : 0 ≤ e.g_dt * pc.max_accel_xy := mul_nonneg hg hxy
  have hmz : 0 ≤ e.g_dt * pc.max_accel_z := mul_nonneg hg hz
  unfold set_desired_velocity_with_accel_and_fence_limits
  simp only [Vec3.sub]
  constructor
  · rw [add_sub_cancel_left, add_sub_cancel_left]
    exact xy_ratio_bound _ _ _ _ hs0 hs2 hm
  · rw [add_sub_cancel_left]
    exact constrain_float_abs_le _ _ hmz

/-- C3: in a Velocity tick that reaches its control stage, once more than
3000 ms have passed since the last velocity-target update, the desired
velocity handed to the position-control collaborator is driven toward
(0,0,0) through the same acceleration limiter used for live targets —
per tick the squared XY change stays within `(G_Dt * max_accel_xy)^2` and
the Z change within `G_Dt * max_accel_z`, never snapping to zero — and a
fixed-rate yaw state has its rate set to 0; within 3000 ms the stored
velocity target is applied through the same limiter. -/
theorem C3_velocity_staleness_decay (e : Env) (s : State)
    (ha : e.armed = true) (hau : e.auto_armed = true) (hl : e.land_complete = false)
    (hp : e.use_pilot_yaw = false) :
    (sub32 e.now_ms s.vel_update_time_ms > 3000 →
      ((vel_control_run e s).1.pos_control =
        (if s.pos_control.desired_vel = Vec3.zero then s.pos_control
         else set_desired_velocity_with_accel_and_fence_limits e s.pos_control Vec3.zero)) ∧
      (s.auto_yaw.mode = YawMode.rate →
        (vel_control_run e s).1.auto_yaw.mode = YawMode.rate ∧
        (vel_control_run e s).1.auto_yaw.rate_cds = 0) ∧
      (SqrtOk e.sqrtq ((Vec3.zero.x - s.pos_control.desired_vel.x) ^ 2 +
          (Vec3.zero.y - s.pos_control.desired_vel.y) ^ 2) →
       0 ≤ e.g_dt → 0 ≤ s.pos_control.max_accel_xy → 0 ≤ s.pos_control.max_accel_z →
        (((vel_control_run e s).1.pos_control.desired_vel.x - s.pos_control.desired_vel.x) ^ 2 +
           ((vel_control_run e s).1.pos_control.desired_vel.y - s.pos_control.desired_vel.y) ^ 2
             ≤ (e.g_dt * s.pos_control.max_accel_xy) ^ 2) ∧
        |(vel_control_run e s).1.pos_control.desired_vel.z - s.pos_control.desired_vel.z|
             ≤ e.g_dt * s.pos_control.max_accel_z)) ∧
    (sub32 e.now_ms s.vel_update_time_ms ≤ 3000 →
      (vel_control_run e s).1.pos_control =
        set_desired_velocity_with_accel_and_fence_limits e s.pos_control s.guided_vel_target_cms) := by
  constructor
  · intro hst
    have hpc : (vel_control_run e s).1.pos_control =
        (if s.pos_control.desired_vel = Vec3.zero then s.pos_control
         else set_desired_velocity_with_accel_and_fence_limits e s.pos_control Vec3.zero) := by
      unfold vel_control_run
      rw [pilot_yaw_step_inactive e s hp]
      simp [ha, hau, hl, is_disarmed_or_landed, hst]
    refine ⟨hpc, ?_, ?_⟩
    · intro hyaw
      unfold vel_control_run
      rw [pilot_yaw_step_inactive e s hp]
      simp [ha, hau, hl, is_disarmed_or_landed, hst, hyaw, AutoYaw.setRate]
    · intro hs hg hxy hz
      rw [hpc]
      split_ifs with h0
      · constructor
        · simp only [sub_self]
          nlinarith [sq_nonneg (e.g_dt * s.pos_control.max_accel_xy)]
        · simp only [sub_self, abs_zero]
          exact mul_nonneg hg hz
      · exact accel_limit_change_bound e s.pos_control Vec3.zero hs hg hxy hz
  · intro hfresh
    unfold vel_control_run
    rw [pilot_yaw_step_inactive e s hp]
    simp [ha, hau, hl, is_disarmed_or_landed, not_lt.mpr hfresh]

/-- C3 witness: a stale target with desired velocity (3,4,0), a 0.01 s
tick and 100 cm/s² limits decays to (12/5, 16/5, 0) — one limited step
toward zero, not a snap — and a fixed-rate yaw of 123 cd/s is zeroed;
a fresh target is passed through the same limiter. -/
theorem C3_velocity_staleness_decay_witness :
    ((vel_control_run
        { env0 with now_ms := 5000, sqrtq := fun q => if q = 25 then 5 else 0 }
        { st0 with guided_mode := GuidedModeTag.Velocity,
                   auto_yaw := { mode := YawMode.rate, fixed_yaw_deg := 0, fixed_rel := false,
                                 rate_cds := 123 },
                   pos_control := { st0.pos_control with
                     desired_vel := ⟨3, 4, 0⟩ } }).1.pos_control.desired_vel
      = ⟨12/5, 16/5, 0⟩) ∧
    ((vel_control_run
        { env0 with now_ms := 5000, sqrtq := fun q => if q = 25 then 5 else 0 }
        { st0 with guided_mode := GuidedModeTag.Velocity,
                   auto_yaw := { mode := YawMode.rate, fixed_yaw_deg := 0, fixed_rel := false,
                                 rate_cds := 123 },
                   pos_control := { st0.pos_control with
                     desired_vel := ⟨3, 4, 0⟩ } }).1.auto_yaw.rate_cds = 0) ∧
    ((vel_control_run env0
        { st0 with guided_mode := GuidedModeTag.Velocity }).1.pos_control =
      set_desired_velocity_with_accel_and_fence_limits env0 st0.pos_control
        st0.guided_vel_target_cms) := by
  have h := C3_velocity_staleness_decay
    { env0 with now_ms := 5000, sqrtq := fun q => if q = 25 then 5 else 0 }
    { st0 with guided_mode := GuidedModeTag.Velocity,
               auto_yaw := { mode := YawMode.rate, fixed_yaw_deg := 0, fixed_rel := false,
                             rate_cds := 123 },
               pos_control := { st0.pos_control with
                 desired_vel := ⟨3, 4, 0⟩ } } rfl rfl rfl rfl
  have hstale := h.1 (by decide)
  refine ⟨?_, ?_, ?_⟩
  · rw [hstale.1]
    norm_num [st0, Vec3.zero, set_desired_velocity_with_accel_and_fence_limits, Vec3.sub,
      constrain_float, env0]
  · exact (hstale.2.1 rfl).2
  · exact (C3_velocity_staleness_decay env0
      { st0 with guided_mode := GuidedModeTag.Velocity } rfl rfl rfl rfl).2 (by decide)

end Guided
